import Mathlib

/-!
Verification of the UGC video generation backend's pipeline orchestration and
provider-fallback engine.

The development shallowly embeds the Python source:

* `app/utils/error_classifier.py` — exceptions become explicit `PyExc` records
  carrying the runtime-type facts the classifier inspects via `isinstance`,
  and `classify_error` becomes a pure function into an `ErrorInfo` record
  whose five fields mirror the five keys of the returned dict.
* `app/services/providers/veo3_provider.py` — `submit_veo3_job` becomes a pure
  function over the outcome of the bounded primary (Kie) attempt and the
  outcome of the fallback (Fal) attempt, returning the result together with
  the list of provider-submission events that occurred.
* the polling loops (`FalProvider.wait_for_completion`,
  `Veo3Provider.wait_for_completion`) become fuel-indexed recursions over a
  per-cycle status oracle and an explicit wall clock measured from loop entry.
* `app/services/pipeline_orchestrator.py` — each entry point becomes a pure
  function of a record of collaborator oracles (provider submissions, polling,
  storage uploads, enrichment, webhook deliveries: all I/O collaborators named
  external in the design), returning the Python result-or-raised-exception and
  the ordered trace of observable events (webhook posts, job submissions,
  poll waits, storage uploads).
-/

namespace UGC

/-- Model of a Python exception as observed by `classify_error`: the runtime
type name, `str(exception)`, and the `isinstance` facts the classifier tests
(`ValueError`, `asyncio.TimeoutError`/`TimeoutError`, `httpx.TimeoutException`,
`httpx.HTTPStatusError` with its response status code). -/
structure PyExc where
  typeName : String
  msg : String
  isValueError : Bool := false
  isTimeoutType : Bool := false
  isHttpxTimeout : Bool := false
  httpStatus : Option Nat := none
deriving DecidableEq, Repr

/-- Python `str(exception)`. -/
def pyStr (e : PyExc) : String := e.msg

/-- Whether `needle` occurs as a contiguous sublist of the second list;
executable helper for Python's `needle in haystack` on strings. -/
def subListAux (needle : List Char) : List Char → Bool
  | [] => needle.isEmpty
  | c :: rest => needle.isPrefixOf (c :: rest) || subListAux needle rest

/-- Python's `needle in haystack` substring test. -/
def pyIn (needle hay : String) : Bool := subListAux needle.data hay.data

/-- Python's `str.lower()` (ASCII-relevant part), written over the character
list so it evaluates by kernel reduction. -/
def pyToLower (s : String) : String := ⟨s.data.map Char.toLower⟩

/-- `ErrorType` enum from `error_classifier.py`. -/
inductive ErrorType where
  | USER_ERROR
  | VALIDATION_ERROR
  | SERVICE_ERROR
  | SYSTEM_ERROR
  | TIMEOUT
deriving DecidableEq, Repr

/-- `ERROR_MESSAGES` table from `error_classifier.py`. -/
def ERROR_MESSAGES : ErrorType → String
  | .USER_ERROR => "Invalid input provided. Please check your data and try again."
  | .VALIDATION_ERROR => "Please fix the validation errors and try again."
  | .SERVICE_ERROR => "The AI service is temporarily unavailable. Your credits will be refunded."
  | .SYSTEM_ERROR => "A system error occurred. Your credits will be refunded automatically."
  | .TIMEOUT => "Generation took too long and timed out. Your credits will be refunded."

/-- `validation_indicators` from `_is_validation_error`. -/
def validation_indicators : List String :=
  ["validation", "invalid", "missing required", "must be", "expected",
   "malformed", "unsupported format", "invalid format", "invalid image",
   "image too large", "image too small", "invalid dimensions", "corrupt",
   "not a valid"]

/-- `timeout_indicators` from `_is_timeout_error`. -/
def timeout_indicators : List String :=
  ["timeout", "timed out", "deadline exceeded", "request timeout",
   "connection timeout", "read timeout"]

/-- `service_indicators` from `_is_service_error`. -/
def service_indicators : List String :=
  ["api error", "service unavailable", "503", "502", "504", "rate limit",
   "quota exceeded", "seedream", "fal.ai", "kie.ai", "veo3", "provider error",
   "external service", "downstream", "failed to generate", "generation failed",
   "500 internal server error"]

/-- `user_error_indicators` from `_is_user_error`. -/
def user_error_indicators : List String :=
  ["nsfw", "inappropriate", "prohibited content", "policy violation",
   "content moderation", "restricted content", "harmful content",
   "unsafe content"]

/-- `_is_validation_error(exception, error_str)`: `isinstance(e, ValueError)`
or any validation indicator occurs in the lower-cased message. -/
def is_validation_error (e : PyExc) (error_str : String) : Bool :=
  e.isValueError || validation_indicators.any (fun ind => pyIn ind error_str)

/-- `_is_timeout_error(exception, error_str)`: a declared timeout type
(`asyncio.TimeoutError`/`TimeoutError` or `httpx.TimeoutException`) or a
timeout indicator in the message. -/
def is_timeout_error (e : PyExc) (error_str : String) : Bool :=
  e.isTimeoutType || e.isHttpxTimeout ||
    timeout_indicators.any (fun ind => pyIn ind error_str)

/-- `_is_service_error(exception, error_str)`: an `httpx.HTTPStatusError`
with status ≥ 500 or = 429, or a service indicator in the message. -/
def is_service_error (e : PyExc) (error_str : String) : Bool :=
  (match e.httpStatus with
   | some code => decide (500 ≤ code) || decide (code = 429)
   | none => false) ||
    service_indicators.any (fun ind => pyIn ind error_str)

/-- `_is_user_error(exception, error_str)`. -/
def is_user_error (_e : PyExc) (error_str : String) : Bool :=
  user_error_indicators.any (fun ind => pyIn ind error_str)

/-- `_extract_validation_message(exception)`. -/
def extract_validation_message (e : PyExc) : String :=
  let error_str := pyStr e
  if pyIn "invalid" (pyToLower error_str) then "Invalid input: " ++ error_str
  else if pyIn "required" (pyToLower error_str) then "Missing required field: " ++ error_str
  else if pyIn "format" (pyToLower error_str) then "Invalid format: " ++ error_str
  else ERROR_MESSAGES .VALIDATION_ERROR

/-- The dict returned by `classify_error`: it always has exactly these five
keys (`error_type`, `error_message`, `is_refundable`, `can_retry`,
`technical_details`). -/
structure ErrorInfo where
  error_type : ErrorType
  error_message : String
  is_refundable : Bool
  can_retry : Bool
  technical_details : String
deriving DecidableEq, Repr

/-- `classify_error(exception, context)` from `error_classifier.py`: the
ordered chain VALIDATION → TIMEOUT → SERVICE → USER → SYSTEM (first match
wins; `context` is accepted but unused by the source body). -/
def classify_error (e : PyExc) (_context : Option String := none) : ErrorInfo :=
  let error_str := pyToLower (pyStr e)
  if is_validation_error e error_str then
    { error_type := .VALIDATION_ERROR
      error_message := extract_validation_message e
      is_refundable := false
      can_retry := true
      technical_details := pyStr e }
  else if is_timeout_error e error_str then
    { error_type := .TIMEOUT
      error_message := ERROR_MESSAGES .TIMEOUT
      is_refundable := true
      can_retry := true
      technical_details := pyStr e }
  else if is_service_error e error_str then
    { error_type := .SERVICE_ERROR
      error_message := ERROR_MESSAGES .SERVICE_ERROR
      is_refundable := true
      can_retry := true
      technical_details := pyStr e }
  else if is_user_error e error_str then
    { error_type := .USER_ERROR
      error_message := "Content violates usage policies. Please try with appropriate content."
      is_refundable := false
      can_retry := false
      technical_details := pyStr e }
  else
    { error_type := .SYSTEM_ERROR
      error_message := ERROR_MESSAGES .SYSTEM_ERROR
      is_refundable := true
      can_retry := true
      technical_details := e.typeName ++ ": " ++ pyStr e }

/-! ### Veo3 provider with fallback (`veo3_provider.py`) -/

/-- The dict returned by `_submit_to_kie` / `_submit_to_fal` before the
provider tag is attached: `job_id` and `estimated_time` as produced by the
underlying provider submission. -/
structure RawSubmit where
  job_id : String
  estimated_time : Nat
deriving DecidableEq, Repr

/-- Result dict of `submit_veo3_job`. -/
structure Veo3Out where
  job_id : String
  provider : String
  estimated_time : Nat
  fallback_triggered : Bool
  primary_provider : String
  primary_error : Option String := none
deriving DecidableEq, Repr

/-- Observable outcome of `asyncio.wait_for(op, timeout)`: either the wrapped
operation finished (successfully or by raising) within the bound, or
`asyncio.TimeoutError` was raised because the bound expired first. -/
inductive Bounded (α : Type) where
  | finished (v : α)
  | expired
deriving DecidableEq, Repr

/-- Provider-submission events of one `submit_veo3_job` call. -/
inductive VEv where
  | kieCall
  | falCall
deriving DecidableEq, Repr

/-- The aggregate exception raised when both providers fail
(`veo3_provider.py` lines 163–167). -/
def veo3AggregateExc (primary_error : String) (fal_error : PyExc) : PyExc :=
  { typeName := "Exception"
    msg := "Veo3 video generation failed on all providers.\nPrimary (Kie.ai): "
           ++ primary_error ++ "\nFallback (Fal.ai): " ++ pyStr fal_error }

/-- The fallback arm of `submit_veo3_job` (lines 132–167): invoke Fal once;
on success tag the result with `fallback_triggered=True` and the recorded
primary error; on failure raise the aggregate exception. -/
def veo3FallbackArm (falOp : Except PyExc RawSubmit) (primary_error : String) :
    Except PyExc Veo3Out × List VEv :=
  match falOp with
  | .ok r =>
    (.ok { job_id := r.job_id, provider := "fal", estimated_time := r.estimated_time,
           fallback_triggered := true, primary_provider := "kie",
           primary_error := some primary_error },
     [.kieCall, .falCall])
  | .error fal_error =>
    (.error (veo3AggregateExc primary_error fal_error), [.kieCall, .falCall])

/-- `Veo3Provider.submit_veo3_job`: if `preferred_provider == "fal"` submit to
Fal directly with `fallback_triggered=False`; otherwise attempt Kie bounded by
`fallback_timeout` via `asyncio.wait_for`, returning immediately on success,
and on timeout or any exception record the primary error and take the
fallback arm.  The event list records which provider submissions occurred, in
order. -/
def submit_veo3_job (preferred_provider : String) (fallback_timeout : Nat)
    (kieAttempt : Bounded (Except PyExc RawSubmit)) (falOp : Except PyExc RawSubmit) :
    Except PyExc Veo3Out × List VEv :=
  if preferred_provider = "fal" then
    match falOp with
    | .error e => (.error e, [.falCall])
    | .ok r =>
      (.ok { job_id := r.job_id, provider := "fal", estimated_time := r.estimated_time,
             fallback_triggered := false, primary_provider := "fal", primary_error := none },
       [.falCall])
  else
    match kieAttempt with
    | .finished (.ok raw) =>
      (.ok { job_id := raw.job_id, provider := "kie", estimated_time := raw.estimated_time,
             fallback_triggered := false, primary_provider := "kie", primary_error := none },
       [.kieCall])
    | .expired =>
      veo3FallbackArm falOp ("Kie.ai timed out after " ++ toString fallback_timeout ++ "s")
    | .finished (.error e) =>
      veo3FallbackArm falOp ("Kie.ai failed: " ++ pyStr e)

/-! ### Polling loops (`wait_for_completion`) -/

/-- The status dict produced by a provider `get_status`/`check_status` call:
`status`, `result_url` (with `""` standing for Python `None`/empty, both
falsy at the `if not status_data["result_url"]` check) and `error`. -/
structure StatusData where
  status : String
  result_url : String := ""
  error : String := ""
deriving DecidableEq, Repr

/-- Outcome of a polling loop: a returned URL, a raised exception, or fuel
exhaustion of the model (the Python loop is `while True`). -/
inductive WaitRes where
  | url (u : String)
  | raised (e : PyExc)
  | outOfFuel
deriving DecidableEq, Repr

/-- The timeout exception of `Veo3Provider.wait_for_completion`. -/
def veo3TimeoutExc (job_id : String) (timeout : Nat) : PyExc :=
  { typeName := "Exception"
    msg := "Veo3 job " ++ job_id ++ " timed out after " ++ toString timeout ++ "s" }

/-- The exception raised when a poll reports COMPLETED without a result URL. -/
def noResultUrlExc : PyExc :=
  { typeName := "Exception", msg := "Job completed but no result URL found" }

/-- `Veo3Provider.wait_for_completion` body: `elapsed` is wall-clock time
since loop entry; `getStatus i` is the outcome of the `get_status` call of
cycle `i` (which may itself raise); `dur i` is the wall-clock time consumed
by cycle `i` (status request plus the `poll_interval` sleep).  Fuel bounds
the recursion of the model only. -/
def veo3WaitAux (job_id : String) (timeout : Nat)
    (getStatus : Nat → Except PyExc StatusData) (dur : Nat → Nat) :
    Nat → Nat → Nat → WaitRes
  | 0, _, _ => .outOfFuel
  | fuel + 1, i, elapsed =>
    if timeout < elapsed then .raised (veo3TimeoutExc job_id timeout)
    else
      match getStatus i with
      | .error e => .raised e
      | .ok sd =>
        if sd.status = "COMPLETED" then
          if sd.result_url = "" then .raised noResultUrlExc
          else .url sd.result_url
        else if sd.status = "FAILED" then
          .raised { typeName := "Exception", msg := "Veo3 job failed: " ++ sd.error }
        else veo3WaitAux job_id timeout getStatus dur fuel (i + 1) (elapsed + dur i)

/-- `Veo3Provider.wait_for_completion` from loop entry. -/
def veo3_wait_for_completion (job_id : String) (timeout : Nat)
    (getStatus : Nat → Except PyExc StatusData) (dur : Nat → Nat) (fuel : Nat) : WaitRes :=
  veo3WaitAux job_id timeout getStatus dur fuel 0 0

/-- The timeout exception of `FalProvider.wait_for_completion`. -/
def falTimeoutExc (job_id : String) (timeout : Nat) : PyExc :=
  { typeName := "Exception"
    msg := "Fal.ai job " ++ job_id ++ " timed out after " ++ toString timeout ++ "s" }

/-- The `for model in models_to_try: try ... break / except: continue` probe
loop of `FalProvider.wait_for_completion`: the first non-raising
`check_status` response is used; if every probe raises, `status_data` stays
`None`. -/
def firstUsable : List (Option StatusData) → Option StatusData
  | [] => none
  | none :: rest => firstUsable rest
  | some sd :: _ => some sd

/-- `FalProvider.wait_for_completion` body: `probes i` lists, in
`models_to_try` order, the outcome of each per-model `check_status` attempt
of cycle `i` (`none` = the attempt raised); `dur i` is the wall-clock time
consumed by cycle `i`.  A cycle whose probes all fail only sleeps and
continues; the deadline check compares wall-clock time since loop entry. -/
def falWaitAux (job_id : String) (timeout : Nat)
    (probes : Nat → List (Option StatusData)) (dur : Nat → Nat) :
    Nat → Nat → Nat → WaitRes
  | 0, _, _ => .outOfFuel
  | fuel + 1, i, elapsed =>
    if timeout < elapsed then .raised (falTimeoutExc job_id timeout)
    else
      match firstUsable (probes i) with
      | none => falWaitAux job_id timeout probes dur fuel (i + 1) (elapsed + dur i)
      | some sd =>
        if sd.status = "COMPLETED" then
          if sd.result_url = "" then .raised noResultUrlExc
          else .url sd.result_url
        else if sd.status = "FAILED" then
          .raised { typeName := "Exception", msg := "Fal.ai job failed: " ++ sd.error }
        else falWaitAux job_id timeout probes dur fuel (i + 1) (elapsed + dur i)

/-- `FalProvider.wait_for_completion` from loop entry. -/
def fal_wait_for_completion (job_id : String) (timeout : Nat)
    (probes : Nat → List (Option StatusData)) (dur : Nat → Nat) (fuel : Nat) : WaitRes :=
  falWaitAux job_id timeout probes dur fuel 0 0

/-! ### Pipeline orchestrator (`pipeline_orchestrator.py`)

Each entry point is embedded as a pure function of the request arguments, a
record of collaborator oracles, and the delivery outcomes of the webhook
POSTs.  It returns the Python return-value-or-raised-exception together with
the ordered trace of observable events. -/

/-- Python helpers for `str.split` / `str.strip` written over character lists
so they evaluate by kernel reduction. -/
def splitCharAux (c : Char) : List Char → List (List Char)
  | [] => [[]]
  | a :: rest =>
    let r := splitCharAux c rest
    if a = c then [] :: r
    else
      match r with
      | [] => [[a]]
      | h :: t => (a :: h) :: t

/-- Python `s.split(c)` for a one-character separator. -/
def pySplitChar (c : Char) (s : String) : List String :=
  (splitCharAux c s.data).map fun l => ⟨l⟩

/-- Python `s.split(c, 1)` for a one-character separator, assuming the
separator occurs: the part before the first occurrence and the rest. -/
def pySplitOnce (c : Char) (s : String) : String × String :=
  let p := s.data.span (fun a => a ≠ c)
  (⟨p.1⟩, ⟨p.2.drop 1⟩)

/-- Python `s.strip()`. -/
def pyStrip (s : String) : String :=
  ⟨((s.data.dropWhile Char.isWhitespace).reverse.dropWhile Char.isWhitespace).reverse⟩

/-- S3 upload result (`upload_person_image` / `upload_composite_image` /
`upload_video` all return `s3_url` and `s3_key`). -/
structure S3Res where
  s3_url : String
  s3_key : String
deriving DecidableEq, Repr

/-- Provider submission result as consumed by the orchestrator (`job_id`). -/
structure JobRes where
  job_id : String
deriving DecidableEq, Repr

/-- Stage-3 submission result as consumed by the orchestrator
(`job_id`, `provider`, `fallback_triggered`). -/
structure Veo3Submit where
  job_id : String
  provider : String
  fallback_triggered : Bool := false
deriving DecidableEq, Repr

/-- The GPT-4o product-analysis dict; fields are optional because the
orchestrator reads them with `dict.get` defaults.  `ptype` models the Python
key `"type"`. -/
structure ProductInfo where
  brand_name : Option String := none
  color_scheme : Option (List String) := none
  visual_description : Option String := none
  ptype : Option String := none
deriving DecidableEq, Repr

/-- The default `product_info` dict built when no product image is provided
(`generate_ugc_video` lines 492–496). -/
def defaultProductInfo : ProductInfo :=
  { brand_name := some "Unknown", color_scheme := some [],
    visual_description := some "Generic product" }

/-- Easy-mode person fields dict (each key may be absent). -/
structure PersonFields where
  gender : Option String := none
  age : Option String := none
  ethnicity : Option String := none
  clothing : Option String := none
  expression : Option String := none
  background : Option String := none
deriving DecidableEq, Repr

/-- The six concrete arguments handed to a person-prompt builder. -/
structure ResolvedPersonFields where
  gender : String
  age : String
  ethnicity : String
  clothing : String
  expression : String
  background : String
deriving DecidableEq, Repr

/-- A webhook JSON payload: one optional field per key that any orchestrator
webhook ever sets (absent key = `none`). -/
structure WPayload where
  generation_id : String
  status : String
  stage : Option Nat := none
  current_stage : Option Nat := none
  message : Option String := none
  person_url : Option String := none
  composite_url : Option String := none
  video_url : Option String := none
  generated_person_url : Option String := none
  s3_key_person : Option String := none
  composite_image_url : Option String := none
  s3_key_composite : Option String := none
  provider_used : Option String := none
  fallback_triggered : Option Bool := none
  total_time : Option Nat := none
  progress : Option Nat := none
  error_type : Option ErrorType := none
  error_message : Option String := none
  is_refundable : Option Bool := none
  can_retry : Option Bool := none
  stage1_error : Option String := none
  stage2_error : Option String := none
  stage3_error : Option String := none
deriving DecidableEq, Repr

/-- Observable pipeline events, in program order: a webhook POST attempt, a
stage job submission (with the data it consumes), a polling wait, and a
storage upload of a stage artifact. -/
inductive PEv where
  | webhook (p : WPayload)
  | submit (stage : Nat) (input : String)
  | poll (stage : Nat)
  | store (stage : Nat) (srcUrl : String)
deriving DecidableEq, Repr

/-- Sequencing of embedded `await` steps: on success the continuation runs
and traces concatenate; a raised exception propagates with the trace so far. -/
def pseq {E α β : Type} (x : Except E α × List PEv) (f : α → Except E β × List PEv) :
    Except E β × List PEv :=
  match x with
  | (.ok a, tr) =>
    match f a with
    | (r, tr2) => (r, tr ++ tr2)
  | (.error e, tr) => (.error e, tr)

/-- `_send_webhook`: skipped when no webhook URL is configured; otherwise one
POST whose delivery outcome (`.ok code` = HTTP response, `.error` = transport
failure) is only logged — the call never raises and never retries. -/
def send_webhook (cfg : Bool) (delivery : Except String Nat) (payload : WPayload) :
    Except PyExc Unit × List PEv :=
  if cfg then
    match delivery with
    | .ok _code => (.ok (), [.webhook payload])
    | .error _e => (.ok (), [.webhook payload])
  else (.ok (), [])

/-- `payload[stage_error_field] = technical_details` in
`_send_failure_webhook`. -/
def set_stage_error (p : WPayload) (stage_error_field : Option String) (details : String) :
    WPayload :=
  match stage_error_field with
  | some "stage1_error" => { p with stage1_error := some details }
  | some "stage2_error" => { p with stage2_error := some details }
  | some "stage3_error" => { p with stage3_error := some details }
  | _ => p

/-- The FAILED payload built by `_send_failure_webhook`: the error
classification of the exception, `current_stage`/`progress` only when a
truthy stage was supplied, and the optional per-stage error field. -/
def failure_payload (generation_id : String) (exception : PyExc) (stage : Option Nat)
    (stage_error_field : Option String) : WPayload :=
  let ctx : Option String :=
    match stage with
    | some s => if s = 0 then none else some ("stage" ++ toString s)
    | none => none
  let error_info := classify_error exception ctx
  let base : WPayload :=
    { generation_id := generation_id, status := "FAILED",
      error_type := some error_info.error_type,
      error_message := some error_info.error_message,
      is_refundable := some error_info.is_refundable,
      can_retry := some error_info.can_retry }
  let p1 : WPayload :=
    match stage with
    | some s => if s = 0 then base else { base with current_stage := some s, progress := some 0 }
    | none => base
  set_stage_error p1 stage_error_field error_info.technical_details

/-- `_send_failure_webhook`: classify the exception, build the FAILED
payload, and send it via `_send_webhook`. -/
def send_failure_webhook (cfg : Bool) (delivery : Except String Nat)
    (generation_id : String) (exception : PyExc) (stage : Option Nat)
    (stage_error_field : Option String) : Except PyExc Unit × List PEv :=
  send_webhook cfg delivery (failure_payload generation_id exception stage stage_error_field)

/-- Delivery outcomes of the webhook POSTs an entry point may perform, one
slot per call site (`fail` is the failure-webhook POST of the handler). -/
structure WebhookDeliveries where
  s1proc : Except String Nat := .ok 200
  s1done : Except String Nat := .ok 200
  s2proc : Except String Nat := .ok 200
  s2done : Except String Nat := .ok 200
  s3proc : Except String Nat := .ok 200
  s3done : Except String Nat := .ok 200
  fail : Except String Nat := .ok 200

/-- Collaborator oracles of the orchestrator: provider clients, storage,
prompt builders and GPT-4o enrichment (all external collaborators per the
design), plus whether a webhook URL / OpenRouter client is configured. -/
structure PipelineOracles where
  webhook_cfg : Bool := true
  openrouter : Bool := false
  build_person_prompt : ResolvedPersonFields → String
  build_person_prompt_kwargs : PersonFields → String
  n8n_person_prompt : ResolvedPersonFields → String
  n8n_composite_prompt : String → String → String → String
  n8n_video_prompt : String → String → String → String → String → String
  n8n_casual_dialogue : String → String → String
  analyze_product_image : String → Except PyExc ProductInfo
  enhance_person_prompt : String → ProductInfo → Except PyExc String
  enhance_composite_prompt : String → ProductInfo → String → Except PyExc String
  enhance_video_prompt : String → String → String → Except PyExc String
  submit_text_to_image : String → Except PyExc JobRes
  submit_image_edit : String → String → String → Except PyExc JobRes
  fal_wait : String → Nat → Except PyExc String
  veo3_submit : String → String → Except PyExc Veo3Submit
  veo3_wait : String → String → Except PyExc String
  upload_person : String → Except PyExc S3Res
  upload_composite : String → Except PyExc S3Res
  upload_video : String → Except PyExc S3Res
  elapsed_total : Nat := 0

/-- Request arguments of the entry points (unused fields default). -/
structure ReqArgs where
  generation_id : String
  user_id : String := ""
  stage1_mode : String := "ADVANCED"
  product_image_url : String := ""
  video_prompt : String := ""
  person_prompt : Option String := none
  person_fields : Option PersonFields := none
  composite_prompt : Option String := none
  veo3_mode : String := "STANDARD"
  duration : Nat := 8
  aspect_ratio : String := "9:16"
  person_image_url : String := ""
  composite_image_url : String := ""
deriving Repr

/-- `ValueError(m)`. -/
def valueErrorExc (m : String) : PyExc :=
  { typeName := "ValueError", msg := m, isValueError := true }

/-- `TypeError(m)`. -/
def typeErrorExc (m : String) : PyExc := { typeName := "TypeError", msg := m }

/-- Oracle call steps, each recording its event. -/
def callSubmitT2I (o : PipelineOracles) (prompt : String) : Except PyExc JobRes × List PEv :=
  (o.submit_text_to_image prompt, [.submit 1 prompt])

/-- Stage-2 `submit_image_edit_job` call (base image, prompt, overlay). -/
def callSubmitEdit (o : PipelineOracles) (base prompt overlay : String) :
    Except PyExc JobRes × List PEv :=
  (o.submit_image_edit base prompt overlay, [.submit 2 base])

/-- `fal_seedream.wait_for_completion` call for stage 1 or 2. -/
def callFalWait (o : PipelineOracles) (stage : Nat) (job_id : String) (timeout : Nat) :
    Except PyExc String × List PEv :=
  (o.fal_wait job_id timeout, [.poll stage])

/-- `veo3.submit_veo3_job` call for stage 3. -/
def callVeo3Submit (o : PipelineOracles) (image_url prompt : String) :
    Except PyExc Veo3Submit × List PEv :=
  (o.veo3_submit image_url prompt, [.submit 3 image_url])

/-- `veo3.wait_for_completion` call. -/
def callVeo3Wait (o : PipelineOracles) (job_id provider : String) :
    Except PyExc String × List PEv :=
  (o.veo3_wait job_id provider, [.poll 3])

/-- `upload_person_image` call. -/
def callUploadPerson (o : PipelineOracles) (url : String) : Except PyExc S3Res × List PEv :=
  (o.upload_person url, [.store 1 url])

/-- `upload_composite_image` call. -/
def callUploadComposite (o : PipelineOracles) (url : String) : Except PyExc S3Res × List PEv :=
  (o.upload_composite url, [.store 2 url])

/-- `upload_video` call. -/
def callUploadVideo (o : PipelineOracles) (url : String) : Except PyExc S3Res × List PEv :=
  (o.upload_video url, [.store 3 url])

/-- Field defaults applied by `generate_ugc_video` before calling
`build_person_prompt_from_fields`. -/
def resolveFullRunFields (f : PersonFields) : ResolvedPersonFields :=
  { gender := f.gender.getD "female", age := f.age.getD "26-35",
    ethnicity := f.ethnicity.getD "Caucasian", clothing := f.clothing.getD "casual",
    expression := f.expression.getD "smiling", background := f.background.getD "white" }

/-- Stage-1 prompt construction of `generate_ugc_video` (lines 462–479);
`none` models a falsy (absent or empty) argument. -/
def ugcBuildPrompt (o : PipelineOracles) (rq : ReqArgs) : Except PyExc String :=
  if rq.stage1_mode = "EASY" then
    match rq.person_fields with
    | none => .error (valueErrorExc "person_fields required for EASY mode")
    | some f => .ok (o.build_person_prompt (resolveFullRunFields f))
  else
    match rq.person_prompt with
    | none => .error (valueErrorExc "person_prompt required for ADVANCED mode")
    | some p => .ok p

/-- Best-effort GPT-4o enrichment of `generate_ugc_video` stage 1 (lines
481–508): inside one `try`, analyze the product image (or build the default
info dict when no image is given) and enhance the person prompt; any raise is
caught, keeping whatever `product_info` was already assigned and the
un-enhanced prompt. -/
def stage1_enrich (o : PipelineOracles) (product_image_url : String) (p : String) :
    Option ProductInfo × String :=
  if o.openrouter then
    if product_image_url ≠ "" then
      match o.analyze_product_image product_image_url with
      | .error _ => (none, p)
      | .ok pi =>
        match o.enhance_person_prompt p pi with
        | .error _ => (some pi, p)
        | .ok p2 => (some pi, p2)
    else
      match o.enhance_person_prompt p defaultProductInfo with
      | .error _ => (some defaultProductInfo, p)
      | .ok p2 => (some defaultProductInfo, p2)
  else (none, p)

/-- The default composite prompt literal of `generate_ugc_video`
(lines 554–563). -/
def defaultCompositePrompt : String :=
  "The person is casually presenting the product to the camera in a natural, relaxed way. The product is held at a comfortable distance from the camera - not too close or too far. Natural hand grip with fingers relaxed, as if showing it to a friend. The product should appear normal-sized, not oversized or dominant in the frame. Keep the person's face, expression, and overall pose similar to the original. Casual, authentic UGC presentation style - not staged or overly posed. The person looks natural and comfortable holding the product."

/-- Best-effort composite-prompt enhancement (lines 565–576): attempted only
when OpenRouter is configured and `product_info` is set; failure keeps the
un-enhanced prompt. -/
def stage2_prompt (o : PipelineOracles) (pinfo : Option ProductInfo)
    (person_url cp0 : String) : String :=
  if o.openrouter then
    match pinfo with
    | some pi =>
      match o.enhance_composite_prompt person_url pi cp0 with
      | .ok c => c
      | .error _ => cp0
    | none => cp0
  else cp0

/-- Best-effort video-prompt enhancement (lines 622–634). -/
def stage3_prompt (o : PipelineOracles) (pinfo : Option ProductInfo)
    (composite_url vp : String) : String :=
  if o.openrouter then
    match pinfo with
    | some pi =>
      match o.enhance_video_prompt composite_url vp (pi.brand_name.getD "product") with
      | .ok v => v
      | .error _ => vp
    | none => vp
  else vp

/-- Result dict of `generate_ugc_video`. -/
structure UgcResult where
  success : Bool
  generation_id : String
  person_url : String
  person_s3_key : String
  composite_url : String
  composite_s3_key : String
  video_url : String
  video_s3_key : String
  provider_used : String
  fallback_triggered : Bool
  total_time : Nat
deriving DecidableEq, Repr

/-- The `try` block of `generate_ugc_video` (full three-stage run). -/
def ugc_body (o : PipelineOracles) (w : WebhookDeliveries) (rq : ReqArgs) :
    Except PyExc UgcResult × List PEv :=
  pseq (send_webhook o.webhook_cfg w.s1proc
        { generation_id := rq.generation_id, stage := some 1, status := "processing",
          message := some "Generating AI person..." }) fun _ =>
  pseq (ugcBuildPrompt o rq, []) fun base_prompt =>
  let en := stage1_enrich o rq.product_image_url base_prompt
  pseq (callSubmitT2I o en.2) fun stage1_result =>
  pseq (callFalWait o 1 stage1_result.job_id 120) fun person_image_url =>
  pseq (callUploadPerson o person_image_url) fun person_s3 =>
  pseq (send_webhook o.webhook_cfg w.s1done
        { generation_id := rq.generation_id, stage := some 1, status := "completed",
          person_url := some person_s3.s3_url }) fun _ =>
  pseq (send_webhook o.webhook_cfg w.s2proc
        { generation_id := rq.generation_id, stage := some 2, status := "processing",
          message := some "Compositing product with person..." }) fun _ =>
  let cp0 := match rq.composite_prompt with
    | some c => if c = "" then defaultCompositePrompt else c
    | none => defaultCompositePrompt
  let composite_prompt := stage2_prompt o en.1 person_s3.s3_url cp0
  pseq (callSubmitEdit o person_s3.s3_url composite_prompt rq.product_image_url) fun stage2_result =>
  pseq (callFalWait o 2 stage2_result.job_id 90) fun composite_image_url =>
  pseq (callUploadComposite o composite_image_url) fun composite_s3 =>
  pseq (send_webhook o.webhook_cfg w.s2done
        { generation_id := rq.generation_id, stage := some 2, status := "completed",
          composite_url := some composite_s3.s3_url }) fun _ =>
  pseq (send_webhook o.webhook_cfg w.s3proc
        { generation_id := rq.generation_id, stage := some 3, status := "processing",
          message := some ("Generating video ("
            ++ (if rq.veo3_mode = "FAST" then "fast" else "standard") ++ " mode)...") }) fun _ =>
  let final_video_prompt := stage3_prompt o en.1 composite_s3.s3_url rq.video_prompt
  pseq (callVeo3Submit o composite_s3.s3_url final_video_prompt) fun stage3_result =>
  pseq (callVeo3Wait o stage3_result.job_id stage3_result.provider) fun video_url =>
  pseq (callUploadVideo o video_url) fun video_s3 =>
  pseq (send_webhook o.webhook_cfg w.s3done
        { generation_id := rq.generation_id, stage := some 3, status := "completed",
          video_url := some video_s3.s3_url, provider_used := some stage3_result.provider,
          fallback_triggered := some stage3_result.fallback_triggered,
          total_time := some o.elapsed_total }) fun _ =>
  (.ok { success := true, generation_id := rq.generation_id,
         person_url := person_s3.s3_url, person_s3_key := person_s3.s3_key,
         composite_url := composite_s3.s3_url, composite_s3_key := composite_s3.s3_key,
         video_url := video_s3.s3_url, video_s3_key := video_s3.s3_key,
         provider_used := stage3_result.provider,
         fallback_triggered := stage3_result.fallback_triggered,
         total_time := o.elapsed_total }, [])

/-- `generate_ugc_video`: on any exception from the body, send one failure
webhook with `stage=None` ("Full pipeline - no specific stage") and re-raise. -/
def generate_ugc_video (o : PipelineOracles) (w : WebhookDeliveries) (rq : ReqArgs) :
    Except PyExc UgcResult × List PEv :=
  match ugc_body o w rq with
  | (.ok v, tr) => (.ok v, tr)
  | (.error e, tr) =>
    (.error e,
     tr ++ (send_failure_webhook o.webhook_cfg w.fail rq.generation_id e none none).2)

/-- Result dict of `generate_person_only`. -/
structure PersonOnlyResult where
  success : Bool
  generation_id : String
  person_url : String
  person_s3_key : String
deriving DecidableEq, Repr

/-- The `try` block of `generate_person_only` (stage-1-only): build the n8n
person prompt (Easy-mode defaults per lines 93–100), submit, poll, upload.
No progress webhook is sent on this path. -/
def person_only_body (o : PipelineOracles) (rq : ReqArgs) :
    Except PyExc PersonOnlyResult × List PEv :=
  pseq
    ((if rq.stage1_mode = "EASY" then
        match rq.person_fields with
        | none => .error (valueErrorExc "person_fields required for EASY mode")
        | some f => .ok (o.n8n_person_prompt
            { gender := f.gender.getD "female", age := f.age.getD "20s",
              ethnicity := f.ethnicity.getD "caucasian", clothing := f.clothing.getD "casual",
              expression := f.expression.getD "smiling",
              background := f.background.getD "home" })
      else
        match rq.person_prompt with
        | none => .error (valueErrorExc "person_prompt required for ADVANCED mode")
        | some p => .ok p, []) : Except PyExc String × List PEv) fun final_person_prompt =>
  pseq (callSubmitT2I o final_person_prompt) fun stage1_result =>
  pseq (callFalWait o 1 stage1_result.job_id 120) fun person_image_url =>
  pseq (callUploadPerson o person_image_url) fun person_s3 =>
  (.ok { success := true, generation_id := rq.generation_id,
         person_url := person_s3.s3_url, person_s3_key := person_s3.s3_key }, [])

/-- `generate_person_only`: on failure, one failure webhook with `stage=1`
and `stage_error_field="stage1_error"`, then re-raise. -/
def generate_person_only (o : PipelineOracles) (w : WebhookDeliveries) (rq : ReqArgs) :
    Except PyExc PersonOnlyResult × List PEv :=
  match person_only_body o rq with
  | (.ok v, tr) => (.ok v, tr)
  | (.error e, tr) =>
    (.error e,
     tr ++ (send_failure_webhook o.webhook_cfg w.fail rq.generation_id e (some 1)
             (some "stage1_error")).2)

/-- Result dict of `generate_composite_only`. -/
structure CompositeOnlyResult where
  success : Bool
  generation_id : String
  composite_url : String
  composite_s3_key : String
deriving DecidableEq, Repr

/-- The `try` block of `generate_composite_only` (stage-2-only): best-effort
product analysis, n8n composite prompt when none was supplied, submit the
edit job against the given person image, poll, upload. -/
def composite_only_body (o : PipelineOracles) (rq : ReqArgs) :
    Except PyExc CompositeOnlyResult × List PEv :=
  let product_info : Option ProductInfo :=
    if o.openrouter then
      match o.analyze_product_image rq.product_image_url with
      | .ok pi => some pi
      | .error _ => none
    else none
  let composite_prompt := match rq.composite_prompt with
    | some c =>
      if c = "" then
        o.n8n_composite_prompt "person from the original image"
          ((product_info.map fun pi => pi.visual_description.getD "product").getD "product")
          ((product_info.map fun pi => pi.brand_name.getD "Unknown").getD "Unknown")
      else c
    | none =>
      o.n8n_composite_prompt "person from the original image"
        ((product_info.map fun pi => pi.visual_description.getD "product").getD "product")
        ((product_info.map fun pi => pi.brand_name.getD "Unknown").getD "Unknown")
  pseq (callSubmitEdit o rq.person_image_url composite_prompt rq.product_image_url)
    fun stage2_result =>
  pseq (callFalWait o 2 stage2_result.job_id 90) fun composite_image_url =>
  pseq (callUploadComposite o composite_image_url) fun composite_s3 =>
  (.ok { success := true, generation_id := rq.generation_id,
         composite_url := composite_s3.s3_url,
         composite_s3_key := composite_s3.s3_key }, [])

/-- `generate_composite_only`: on failure, one failure webhook with `stage=2`
and `stage_error_field="stage2_error"`, then re-raise. -/
def generate_composite_only (o : PipelineOracles) (w : WebhookDeliveries) (rq : ReqArgs) :
    Except PyExc CompositeOnlyResult × List PEv :=
  match composite_only_body o rq with
  | (.ok v, tr) => (.ok v, tr)
  | (.error e, tr) =>
    (.error e,
     tr ++ (send_failure_webhook o.webhook_cfg w.fail rq.generation_id e (some 2)
             (some "stage2_error")).2)

/-- The `video_prompt` parsing of `generate_video_only` (lines 296–318): a
structured prompt with lines `key: value` sets dialogue/action/emotion, a
freeform prompt becomes the dialogue. -/
def parse_video_prompt (vp : String) : String × String × String :=
  let dflt : String × String × String :=
    ("", "character sits holding the product casually while speaking", "casual and happy")
  if pyIn "\n" vp && pyIn ":" vp then
    (pySplitChar '\n' vp).foldl
      (fun acc line =>
        if pyIn ":" line then
          let kv := pySplitOnce ':' line
          let key := pyToLower (pyStrip kv.1)
          let value := pyStrip kv.2
          if key = "dialogue" then (value, acc.2.1, acc.2.2)
          else if key = "action" then (acc.1, value, acc.2.2)
          else if key = "emotion" then (acc.1, acc.2.1, value)
          else acc
        else acc) dflt
  else (vp, dflt.2.1, dflt.2.2)

/-- Result dict of `generate_video_only`. -/
structure VideoOnlyResult where
  success : Bool
  generation_id : String
  video_url : String
  video_s3_key : String
  provider_used : String
  fallback_triggered : Bool
deriving DecidableEq, Repr

/-- The `try` block of `generate_video_only` (stage-3-only): best-effort
product analysis (only when a product image was given), prompt parsing, n8n
video prompt, Veo3 submission with fallback, poll, upload. -/
def video_only_body (o : PipelineOracles) (rq : ReqArgs) :
    Except PyExc VideoOnlyResult × List PEv :=
  let product_info : Option ProductInfo :=
    if o.openrouter && rq.product_image_url ≠ "" then
      match o.analyze_product_image rq.product_image_url with
      | .ok pi => some pi
      | .error _ => none
    else none
  let parsed := parse_video_prompt rq.video_prompt
  let product_type := (product_info.map fun pi => pi.ptype.getD "product").getD "product"
  let brand_name := (product_info.map fun pi => pi.brand_name.getD "").getD ""
  let dialogue := if parsed.1 = "" then o.n8n_casual_dialogue product_type brand_name
                  else parsed.1
  let final_video_prompt :=
    o.n8n_video_prompt dialogue parsed.2.1 parsed.2.2 "person from the composite image"
      product_type
  pseq (callVeo3Submit o rq.composite_image_url final_video_prompt) fun stage3_result =>
  pseq (callVeo3Wait o stage3_result.job_id stage3_result.provider) fun video_url =>
  pseq (callUploadVideo o video_url) fun video_s3 =>
  (.ok { success := true, generation_id := rq.generation_id,
         video_url := video_s3.s3_url, video_s3_key := video_s3.s3_key,
         provider_used := stage3_result.provider,
         fallback_triggered := stage3_result.fallback_triggered }, [])

/-- `generate_video_only`: on failure, one failure webhook with `stage=3`
and `stage_error_field="stage3_error"`, then re-raise. -/
def generate_video_only (o : PipelineOracles) (w : WebhookDeliveries) (rq : ReqArgs) :
    Except PyExc VideoOnlyResult × List PEv :=
  match video_only_body o rq with
  | (.ok v, tr) => (.ok v, tr)
  | (.error e, tr) =>
    (.error e,
     tr ++ (send_failure_webhook o.webhook_cfg w.fail rq.generation_id e (some 3)
             (some "stage3_error")).2)

/-- Result dict of `generate_person_and_composite`. -/
structure Stages12Result where
  success : Bool
  generation_id : String
  person_url : String
  person_s3_key : String
  composite_url : String
  composite_s3_key : String
  total_time : Nat
deriving DecidableEq, Repr

/-- Easy-mode prompt construction of `generate_person_and_composite`
(line 757): `build_person_prompt_from_fields(**person_fields)` — a missing
dict or missing keys raise `TypeError` (the builder has no defaults). -/
def stages12BuildPrompt (o : PipelineOracles) (rq : ReqArgs) : Except PyExc String :=
  if rq.stage1_mode = "EASY" then
    match rq.person_fields with
    | none =>
      .error (typeErrorExc
        "build_person_prompt_from_fields() argument after ** must be a mapping, not NoneType")
    | some f =>
      if f.gender.isSome && f.age.isSome && f.ethnicity.isSome && f.clothing.isSome
          && f.expression.isSome && f.background.isSome then
        .ok (o.build_person_prompt_kwargs f)
      else
        .error (typeErrorExc
          "build_person_prompt_from_fields() missing required positional arguments")
  else
    .ok (rq.person_prompt.getD "")

/-- The `try` block of `generate_person_and_composite` (stages 1–2 only). -/
def stages12_body (o : PipelineOracles) (w : WebhookDeliveries) (rq : ReqArgs) :
    Except PyExc Stages12Result × List PEv :=
  pseq ((stages12BuildPrompt o rq, []) : Except PyExc String × List PEv) fun person_prompt =>
  let en :=
    if o.openrouter && rq.product_image_url ≠ "" then
      match o.analyze_product_image rq.product_image_url with
      | .error _ => ((none : Option ProductInfo), person_prompt)
      | .ok pi =>
        match o.enhance_person_prompt person_prompt pi with
        | .error _ => (some pi, person_prompt)
        | .ok p2 => (some pi, p2)
    else (none, person_prompt)
  pseq (callSubmitT2I o en.2) fun person_job =>
  pseq (callFalWait o 1 person_job.job_id 120) fun person_image_url =>
  pseq (callUploadPerson o person_image_url) fun person_s3 =>
  pseq (send_webhook o.webhook_cfg w.s1done
        { generation_id := rq.generation_id, status := "processing",
          current_stage := some 1, progress := some 50,
          generated_person_url := some person_s3.s3_url,
          s3_key_person := some person_s3.s3_key }) fun _ =>
  let cp1 := match rq.composite_prompt with
    | some c => if c = "" then "product held naturally by person" else c
    | none => "product held naturally by person"
  let composite_prompt_text :=
    if o.openrouter then
      match en.1 with
      | some pi =>
        match o.enhance_composite_prompt person_s3.s3_url pi (rq.composite_prompt.getD "") with
        | .ok c => c
        | .error _ => cp1
      | none => cp1
    else cp1
  pseq (callSubmitEdit o person_s3.s3_url composite_prompt_text rq.product_image_url)
    fun composite_job =>
  pseq (callFalWait o 2 composite_job.job_id 120) fun composite_image_url =>
  pseq (callUploadComposite o composite_image_url) fun composite_s3 =>
  pseq (send_webhook o.webhook_cfg w.s2done
        { generation_id := rq.generation_id, status := "completed",
          current_stage := some 2, progress := some 100,
          composite_image_url := some composite_s3.s3_url,
          s3_key_composite := some composite_s3.s3_key }) fun _ =>
  (.ok { success := true, generation_id := rq.generation_id,
         person_url := person_s3.s3_url, person_s3_key := person_s3.s3_key,
         composite_url := composite_s3.s3_url, composite_s3_key := composite_s3.s3_key,
         total_time := o.elapsed_total }, [])

/-- `generate_person_and_composite`: on failure, one failure webhook with
`stage=None` ("Test method - no specific stage"), then re-raise. -/
def generate_person_and_composite (o : PipelineOracles) (w : WebhookDeliveries)
    (rq : ReqArgs) : Except PyExc Stages12Result × List PEv :=
  match stages12_body o w rq with
  | (.ok v, tr) => (.ok v, tr)
  | (.error e, tr) =>
    (.error e,
     tr ++ (send_failure_webhook o.webhook_cfg w.fail rq.generation_id e none none).2)

/-- A webhook event whose payload reports FAILED status (only the failure
handler produces these). -/
def isFailureWebhook : PEv → Bool
  | .webhook p => p.status = "FAILED"
  | _ => false

/-- Number of failure webhooks in a trace. -/
def failedCount (tr : List PEv) : Nat := tr.countP isFailureWebhook

/-- Whether an event is a job submission for the given stage. -/
def isSubmitFor (stage : Nat) : PEv → Bool
  | .submit s _ => s = stage
  | _ => false

/-- A generic test exception. -/
def eBoom : PyExc := { typeName := "Exception", msg := "boom" }

/-- Concrete collaborator oracles for witnesses: every provider, storage and
builder call succeeds; product analysis fails. -/
def okOracles : PipelineOracles :=
  { webhook_cfg := true
    openrouter := true
    build_person_prompt := fun _ => "bp"
    build_person_prompt_kwargs := fun _ => "bpk"
    n8n_person_prompt := fun _ => "np"
    n8n_composite_prompt := fun _ _ _ => "nc"
    n8n_video_prompt := fun _ _ _ _ _ => "nv"
    n8n_casual_dialogue := fun _ _ => "cd"
    analyze_product_image := fun _ => .error { typeName := "Exception", msg := "a-fail" }
    enhance_person_prompt := fun p _ => .ok p
    enhance_composite_prompt := fun _ _ c => .ok c
    enhance_video_prompt := fun _ v _ => .ok v
    submit_text_to_image := fun _ => .ok { job_id := "j1" }
    submit_image_edit := fun _ _ _ => .ok { job_id := "j2" }
    fal_wait := fun _ _ => .ok "wurl"
    veo3_submit := fun _ _ => .ok { job_id := "j3", provider := "kie" }
    veo3_wait := fun _ _ => .ok "vurl"
    upload_person := fun _ => .ok { s3_url := "pu", s3_key := "pk" }
    upload_composite := fun _ => .ok { s3_url := "cu", s3_key := "ck" }
    upload_video := fun _ => .ok { s3_url := "vu", s3_key := "vk" } }

/-- Concrete full-run request arguments for witnesses. -/
def rqFull : ReqArgs :=
  { generation_id := "g", user_id := "u", stage1_mode := "ADVANCED",
    product_image_url := "prod.png", video_prompt := "vp", person_prompt := some "pp" }

/-- Concrete oracles whose stage-1 submission raises. -/
def failS1Oracles : PipelineOracles :=
  { okOracles with openrouter := false, submit_text_to_image := fun _ => .error eBoom }

end UGC

/-! ## Theorems -/

namespace UGC

/-- C10: `classify_error` always returns a record with all five keys (the
`ErrorInfo` structure carries exactly `error_type`, `error_message`,
`is_refundable`, `can_retry`, `technical_details` by construction), in which
`is_refundable = false` exactly when the error type is VALIDATION_ERROR or
USER_ERROR, and `can_retry = false` exactly when the error type is
USER_ERROR. -/
theorem classify_error_refund_retry_characterization (e : PyExc) :
    ((classify_error e).is_refundable = false ↔
      ((classify_error e).error_type = ErrorType.VALIDATION_ERROR ∨
       (classify_error e).error_type = ErrorType.USER_ERROR)) ∧
    ((classify_error e).can_retry = false ↔
      (classify_error e).error_type = ErrorType.USER_ERROR) := by
  simp only [classify_error]
  repeat' split
  all_goals simp

/-- C1, counterexample: a declared timeout-type exception
(`TimeoutError("invalid")`) whose message contains the validation keyword
"invalid" is classified VALIDATION_ERROR, not TIMEOUT — the validation
keyword scan runs before the timeout type check. -/
theorem classify_timeout_type_with_invalid_msg_not_timeout :
    (classify_error
      { typeName := "TimeoutError", msg := "invalid", isTimeoutType := true }).error_type
        = ErrorType.VALIDATION_ERROR ∧
    (classify_error
      { typeName := "TimeoutError", msg := "invalid", isTimeoutType := true }).error_type
        ≠ ErrorType.TIMEOUT := by decide

/-- C1, amended: for every exception of a declared timeout type
(`asyncio.TimeoutError`/`TimeoutError` or `httpx.TimeoutException`) that is
not caught by the earlier validation check (not a `ValueError` and no
validation indicator in its message), `classify_error` returns TIMEOUT
regardless of any other message content — in particular the typed check takes
precedence over the timeout keyword scan. -/
theorem classify_timeout_type_priority (e : PyExc)
    (ht : e.isTimeoutType = true ∨ e.isHttpxTimeout = true)
    (hv : is_validation_error e (pyToLower (pyStr e)) = false) :
    (classify_error e).error_type = ErrorType.TIMEOUT ∧
    (classify_error e).is_refundable = true := by
  unfold classify_error
  rcases ht with h | h <;> simp [hv, is_timeout_error, h]

/-- Witness for `classify_timeout_type_priority` at
`TimeoutError("connection reset")`. -/
theorem classify_timeout_type_priority_witness :
    (({ typeName := "TimeoutError", msg := "connection reset",
        isTimeoutType := true } : PyExc).isTimeoutType = true ∨
     ({ typeName := "TimeoutError", msg := "connection reset",
        isTimeoutType := true } : PyExc).isHttpxTimeout = true) ∧
    is_validation_error
      { typeName := "TimeoutError", msg := "connection reset", isTimeoutType := true }
      (pyToLower (pyStr
        { typeName := "TimeoutError", msg := "connection reset", isTimeoutType := true }))
      = false ∧
    (classify_error
      { typeName := "TimeoutError", msg := "connection reset",
        isTimeoutType := true }).error_type = ErrorType.TIMEOUT :=
  ⟨Or.inl rfl, by decide,
   (classify_timeout_type_priority _ (Or.inl rfl) (by decide)).1⟩

/-- Helper: the Veo3 polling loop never returns an empty result URL — the
COMPLETED branch raises instead when the URL is absent. -/
theorem veo3WaitAux_url_ne_empty (job_id : String) (timeout : Nat)
    (getStatus : Nat → Except PyExc StatusData) (dur : Nat → Nat) :
    ∀ fuel i elapsed u,
      veo3WaitAux job_id timeout getStatus dur fuel i elapsed = .url u → u ≠ "" := by
  intro fuel
  induction fuel with
  | zero => intro i elapsed u h; simp [veo3WaitAux] at h
  | succ n ih =>
    intro i elapsed u h
    unfold veo3WaitAux at h
    repeat' split at h
    all_goals try simp_all
    all_goals exact ih _ _ _ h

/-- C7: whenever a status poll of `Veo3Provider.wait_for_completion` reports
COMPLETED with no result URL (within the deadline), the loop raises the
"Job completed but no result URL found" exception; `classify_error` maps
that exception to SYSTEM_ERROR with `is_refundable=true`; and the loop can
never return an empty URL. -/
theorem veo3_completed_without_url_raises_system_error
    (job_id : String) (timeout : Nat) (getStatus : Nat → Except PyExc StatusData)
    (dur : Nat → Nat) (fuel i elapsed : Nat) (sd : StatusData)
    (hel : elapsed ≤ timeout) (hs : getStatus i = .ok sd)
    (hc : sd.status = "COMPLETED") (hu : sd.result_url = "") :
    veo3WaitAux job_id timeout getStatus dur (fuel + 1) i elapsed = .raised noResultUrlExc ∧
    (classify_error noResultUrlExc).error_type = ErrorType.SYSTEM_ERROR ∧
    (classify_error noResultUrlExc).is_refundable = true ∧
    (∀ fuel' i' elapsed' u,
      veo3WaitAux job_id timeout getStatus dur fuel' i' elapsed' = .url u → u ≠ "") := by
  refine ⟨?_, by decide, by decide, veo3WaitAux_url_ne_empty job_id timeout getStatus dur⟩
  unfold veo3WaitAux
  simp [Nat.not_lt.mpr hel, hs, hc, hu]

/-- Witness for `veo3_completed_without_url_raises_system_error` at a
concrete oracle that reports COMPLETED with an empty URL on the first poll. -/
theorem veo3_completed_without_url_witness :
    (0 : Nat) ≤ 600 ∧
    (fun _ : Nat => (.ok { status := "COMPLETED" } : Except PyExc StatusData)) 0
      = .ok { status := "COMPLETED" } ∧
    veo3WaitAux "job1" 600 (fun _ => .ok { status := "COMPLETED" }) (fun _ => 30) 1 0 0
      = .raised noResultUrlExc ∧
    (classify_error noResultUrlExc).error_type = ErrorType.SYSTEM_ERROR :=
  ⟨Nat.zero_le 600, rfl,
   (veo3_completed_without_url_raises_system_error "job1" 600
      (fun _ => .ok { status := "COMPLETED" }) (fun _ => 30) 0 0 0
      { status := "COMPLETED" } (Nat.zero_le 600) rfl rfl rfl).1,
   (veo3_completed_without_url_raises_system_error "job1" 600
      (fun _ => .ok { status := "COMPLETED" }) (fun _ => 30) 0 0 0
      { status := "COMPLETED" } (Nat.zero_le 600) rfl rfl rfl).2.1⟩

/-- Helper: when every probe of every cycle fails, the Fal polling loop can
only raise the wall-clock timeout exception (never a job-failure one). -/
theorem falWaitAux_allfail_only_timeout (job_id : String) (timeout : Nat)
    (probes : Nat → List (Option StatusData)) (dur : Nat → Nat)
    (hall : ∀ i, firstUsable (probes i) = none) :
    ∀ fuel i elapsed e,
      falWaitAux job_id timeout probes dur fuel i elapsed = .raised e →
        e = falTimeoutExc job_id timeout := by
  intro fuel
  induction fuel with
  | zero => intro i elapsed e h; simp [falWaitAux] at h
  | succ n ih =>
    intro i elapsed e h
    unfold falWaitAux at h
    rw [hall i] at h
    split at h
    · exact (WaitRes.raised.inj h).symm
    · exact ih _ _ _ h

/-- Helper: with every probe failing and time advancing each cycle, enough
fuel always reaches the wall-clock timeout raise. -/
theorem falWaitAux_allfail_times_out (job_id : String) (timeout : Nat)
    (probes : Nat → List (Option StatusData)) (dur : Nat → Nat)
    (hall : ∀ i, firstUsable (probes i) = none) (hdur : ∀ i, 1 ≤ dur i) :
    ∀ fuel i elapsed, 1 ≤ fuel → timeout + 2 ≤ fuel + elapsed →
      falWaitAux job_id timeout probes dur fuel i elapsed
        = .raised (falTimeoutExc job_id timeout) := by
  intro fuel
  induction fuel with
  | zero => intro i elapsed h0 _; exact absurd h0 (by omega)
  | succ n ih =>
    intro i elapsed _ hbig
    unfold falWaitAux
    rw [hall i]
    split
    · rfl
    · rename_i hle
      have hel : elapsed ≤ timeout := Nat.not_lt.mp hle
      exact ih (i + 1) (elapsed + dur i) (by have := hdur i; omega)
        (by have := hdur i; omega)

/-- C6: the polling deadline is wall-clock time measured from loop entry —
(1) any poll cycle starting with `elapsed > timeout` raises the timeout
exception immediately (for both the Fal and the Veo3 loop), regardless of the
probe outcomes of that cycle; (2) a cycle whose status probes all fail merely
advances to the next poll tick; (3) under perpetual probe failure the loop
never raises anything but the wall-clock timeout, and with enough fuel it
does raise it. -/
theorem polling_wall_clock_deadline (job_id : String) (timeout : Nat)
    (probes : Nat → List (Option StatusData)) (dur : Nat → Nat) :
    (∀ fuel i elapsed, timeout < elapsed →
      falWaitAux job_id timeout probes dur (fuel + 1) i elapsed
        = .raised (falTimeoutExc job_id timeout)) ∧
    (∀ (getStatus : Nat → Except PyExc StatusData) fuel i elapsed, timeout < elapsed →
      veo3WaitAux job_id timeout getStatus dur (fuel + 1) i elapsed
        = .raised (veo3TimeoutExc job_id timeout)) ∧
    (∀ fuel i elapsed, elapsed ≤ timeout → firstUsable (probes i) = none →
      falWaitAux job_id timeout probes dur (fuel + 1) i elapsed
        = falWaitAux job_id timeout probes dur fuel (i + 1) (elapsed + dur i)) ∧
    ((∀ i, firstUsable (probes i) = none) →
      (∀ fuel i elapsed e,
        falWaitAux job_id timeout probes dur fuel i elapsed = .raised e →
          e = falTimeoutExc job_id timeout) ∧
      ((∀ i, 1 ≤ dur i) → ∀ fuel i elapsed, 1 ≤ fuel → timeout + 2 ≤ fuel + elapsed →
        falWaitAux job_id timeout probes dur fuel i elapsed
          = .raised (falTimeoutExc job_id timeout))) := by
  refine ⟨?_, ?_, ?_, fun hall => ⟨?_, fun hdur => ?_⟩⟩
  · intro fuel i elapsed h
    unfold falWaitAux
    simp [h]
  · intro getStatus fuel i elapsed h
    unfold veo3WaitAux
    simp [h]
  · intro fuel i elapsed hle hp
    conv_lhs => unfold falWaitAux
    simp [hp, Nat.not_lt.mpr hle]
  · intro fuel i elapsed e h
    exact falWaitAux_allfail_only_timeout job_id timeout probes dur hall fuel i elapsed e h
  · intro fuel i elapsed h1 h2
    exact falWaitAux_allfail_times_out job_id timeout probes dur hall hdur fuel i elapsed h1 h2

/-- Witness for `polling_wall_clock_deadline`: with every probe failing and
one-second cycles, a 3-second deadline is raised as a timeout (never as a
job failure). -/
theorem polling_wall_clock_deadline_witness :
    (3 : Nat) < 4 ∧
    (∀ i : Nat, firstUsable ((fun _ => [none, none]) i) = none) ∧
    falWaitAux "j" 3 (fun _ => [none, none]) (fun _ => 1) 6 0 4
      = .raised (falTimeoutExc "j" 3) ∧
    falWaitAux "j" 3 (fun _ => [none, none]) (fun _ => 1) 6 0 0
      = .raised (falTimeoutExc "j" 3) :=
  ⟨by decide, fun _ => rfl,
   (polling_wall_clock_deadline "j" 3 (fun _ => [none, none]) (fun _ => 1)).1 5 0 4
     (by decide),
   ((polling_wall_clock_deadline "j" 3 (fun _ => [none, none]) (fun _ => 1)).2.2.2
     (fun _ => rfl)).2 (fun _ => Nat.le_refl 1) 6 0 0 (by decide) (by decide)⟩

/-- C2: with `preferred_provider="kie"`, if the primary Kie submission
resolves successfully within `fallback_timeout`, `submit_veo3_job` returns
that result with `fallback_triggered=false` and the Fal fallback is never
invoked (the event trace is exactly one Kie call). -/
theorem veo3_primary_success_no_fallback (fallback_timeout : Nat) (raw : RawSubmit)
    (falOp : Except PyExc RawSubmit) :
    submit_veo3_job "kie" fallback_timeout (.finished (.ok raw)) falOp
      = (.ok { job_id := raw.job_id, provider := "kie",
               estimated_time := raw.estimated_time, fallback_triggered := false,
               primary_provider := "kie", primary_error := none },
         [VEv.kieCall]) ∧
    VEv.falCall ∉ (submit_veo3_job "kie" fallback_timeout (.finished (.ok raw)) falOp).2 := by
  constructor
  · rfl
  · simp [submit_veo3_job]

/-- C3: with `preferred_provider="kie"`, if the primary attempt timed out or
raised, the Fal fallback is invoked exactly once and on its success the
result has `fallback_triggered=true` with `primary_provider` and
`primary_error` recorded; conversely any `submit_veo3_job` result with
`fallback_triggered=true` arose from a primary attempt that timed out or
raised. -/
theorem veo3_fallback_triggered_iff_primary_failed (fallback_timeout : Nat)
    (kieAttempt : Bounded (Except PyExc RawSubmit)) (falRaw : RawSubmit)
    (hfail : kieAttempt = .expired ∨ ∃ e, kieAttempt = .finished (.error e)) :
    (∃ out s,
      submit_veo3_job "kie" fallback_timeout kieAttempt (.ok falRaw)
        = (.ok out, [VEv.kieCall, VEv.falCall]) ∧
      out.fallback_triggered = true ∧ out.primary_provider = "kie" ∧
      out.primary_error = some s ∧
      (submit_veo3_job "kie" fallback_timeout kieAttempt (.ok falRaw)).2.count VEv.falCall
        = 1) ∧
    (∀ (pref : String) (t : Nat) (kie : Bounded (Except PyExc RawSubmit))
        (falOp : Except PyExc RawSubmit) (out : Veo3Out) (tr : List VEv),
      submit_veo3_job pref t kie falOp = (.ok out, tr) → out.fallback_triggered = true →
      kie = .expired ∨ ∃ e, kie = .finished (.error e)) := by
  constructor
  · rcases hfail with h | ⟨e, h⟩ <;> subst h
    · exact ⟨_, _, rfl, rfl, rfl, rfl, rfl⟩
    · exact ⟨_, _, rfl, rfl, rfl, rfl, rfl⟩
  · intro pref t kie falOp out tr h hft
    unfold submit_veo3_job at h
    split at h
    · cases falOp with
      | error e => simp at h
      | ok r =>
        rw [Prod.mk.injEq] at h
        obtain ⟨h1, -⟩ := h
        rw [Except.ok.injEq] at h1
        rw [← h1] at hft
        simp at hft
    · cases kie with
      | expired => exact Or.inl rfl
      | finished r =>
        cases r with
        | ok raw =>
          rw [Prod.mk.injEq] at h
          obtain ⟨h1, -⟩ := h
          rw [Except.ok.injEq] at h1
          rw [← h1] at hft
          simp at hft
        | error e => exact Or.inr ⟨e, rfl⟩

/-- Witness for `veo3_fallback_triggered_iff_primary_failed`: a timed-out
primary with a successful fallback submission. -/
theorem veo3_fallback_triggered_witness :
    ((Bounded.expired : Bounded (Except PyExc RawSubmit)) = .expired ∨
      ∃ e, (Bounded.expired : Bounded (Except PyExc RawSubmit)) = .finished (.error e)) ∧
    (∃ out s,
      submit_veo3_job "kie" 60 .expired (.ok { job_id := "fj", estimated_time := 240 })
        = (.ok out, [VEv.kieCall, VEv.falCall]) ∧
      out.fallback_triggered = true ∧ out.primary_provider = "kie" ∧
      out.primary_error = some s ∧
      (submit_veo3_job "kie" 60 .expired
        (.ok { job_id := "fj", estimated_time := 240 })).2.count VEv.falCall = 1) :=
  ⟨Or.inl rfl,
   (veo3_fallback_triggered_iff_primary_failed 60 .expired
     { job_id := "fj", estimated_time := 240 } (Or.inl rfl)).1⟩

/-- C4: with `preferred_provider="kie"`, if the primary attempt failed and
the fallback also raises, `submit_veo3_job` raises exactly one aggregate
exception whose message embeds both the primary's and the fallback's error
text, and the event trace is exactly one Kie call followed by one Fal call —
no third submission attempt. -/
theorem veo3_both_fail_single_aggregate (fallback_timeout : Nat)
    (kieAttempt : Bounded (Except PyExc RawSubmit)) (fal_error : PyExc)
    (hfail : kieAttempt = .expired ∨ ∃ e, kieAttempt = .finished (.error e)) :
    ∃ exc ptxt,
      submit_veo3_job "kie" fallback_timeout kieAttempt (.error fal_error)
        = (.error exc, [VEv.kieCall, VEv.falCall]) ∧
      exc.msg = "Veo3 video generation failed on all providers.\nPrimary (Kie.ai): "
        ++ ptxt ++ "\nFallback (Fal.ai): " ++ pyStr fal_error ∧
      (kieAttempt = .expired →
        ptxt = "Kie.ai timed out after " ++ toString fallback_timeout ++ "s") ∧
      (∀ e, kieAttempt = .finished (.error e) → ptxt = "Kie.ai failed: " ++ pyStr e) := by
  rcases hfail with h | ⟨e, h⟩ <;> subst h
  · refine ⟨_, "Kie.ai timed out after " ++ toString fallback_timeout ++ "s",
      rfl, rfl, ?_, ?_⟩
    · intro _; rfl
    · intro e h; exact nomatch h
  · refine ⟨_, "Kie.ai failed: " ++ pyStr e, rfl, rfl, ?_, ?_⟩
    · intro h; exact nomatch h
    · intro e' h'
      injection h' with h2
      injection h2 with h3
      rw [h3]

/-- Witness for `veo3_both_fail_single_aggregate`: timed-out primary, then a
fallback failure. -/
theorem veo3_both_fail_single_aggregate_witness :
    ((Bounded.expired : Bounded (Except PyExc RawSubmit)) = .expired ∨
      ∃ e, (Bounded.expired : Bounded (Except PyExc RawSubmit)) = .finished (.error e)) ∧
    (∃ exc ptxt,
      submit_veo3_job "kie" 60 .expired (.error { typeName := "Exception", msg := "fal down" })
        = (.error exc, [VEv.kieCall, VEv.falCall]) ∧
      exc.msg = "Veo3 video generation failed on all providers.\nPrimary (Kie.ai): "
        ++ ptxt ++ "\nFallback (Fal.ai): "
        ++ pyStr { typeName := "Exception", msg := "fal down" } ∧
      ((Bounded.expired : Bounded (Except PyExc RawSubmit)) = .expired →
        ptxt = "Kie.ai timed out after " ++ toString 60 ++ "s") ∧
      (∀ e, (Bounded.expired : Bounded (Except PyExc RawSubmit)) = .finished (.error e) →
        ptxt = "Kie.ai failed: " ++ pyStr e)) :=
  ⟨Or.inl rfl,
   veo3_both_fail_single_aggregate 60 .expired
     { typeName := "Exception", msg := "fal down" } (Or.inl rfl)⟩

/-- Helper: a `_send_webhook` call never raises, performs at most one POST,
and its behaviour does not depend on the delivery outcome. -/
theorem send_webhook_eq (cfg : Bool) (d : Except String Nat) (p : WPayload) :
    send_webhook cfg d p = (.ok (), if cfg then [PEv.webhook p] else []) := by
  cases cfg <;> cases d <;> rfl

/-- Helper: same shape for `_send_failure_webhook`. -/
theorem send_failure_webhook_eq (cfg : Bool) (d : Except String Nat) (gid : String)
    (e : PyExc) (st : Option Nat) (sef : Option String) :
    send_failure_webhook cfg d gid e st sef
      = (.ok (), if cfg then [PEv.webhook (failure_payload gid e st sef)] else []) := by
  unfold send_failure_webhook
  exact send_webhook_eq cfg d _

/-- Helper: a failing product analysis leaves stage-1 enrichment with no
product info and the un-enhanced prompt. -/
theorem stage1_enrich_analyze_error (o : PipelineOracles) (purl p : String) (e : PyExc)
    (hor : o.openrouter = true) (hurl : purl ≠ "")
    (ha : o.analyze_product_image purl = .error e) :
    stage1_enrich o purl p = (none, p) := by
  simp [stage1_enrich, hor, hurl, ha]

/-- Helper: enrichment is skipped entirely without an OpenRouter client. -/
theorem stage1_enrich_off (o : PipelineOracles) (purl p : String)
    (hor : o.openrouter = false) : stage1_enrich o purl p = (none, p) := by
  simp [stage1_enrich, hor]

/-- Helper: without product info the composite prompt is left unchanged. -/
theorem stage2_prompt_none (o : PipelineOracles) (purl cp : String) :
    stage2_prompt o none purl cp = cp := by
  unfold stage2_prompt
  split <;> rfl

/-- Helper: without product info the video prompt is left unchanged. -/
theorem stage3_prompt_none (o : PipelineOracles) (curl vp : String) :
    stage3_prompt o none curl vp = vp := by
  unfold stage3_prompt
  split <;> rfl

/-- Helper: a raising person-prompt enhancer behaves like the identity
enhancer in stage-1 enrichment. -/
theorem stage1_enrich_err_eq_id (o : PipelineOracles) (purl p : String) (e : PyExc) :
    stage1_enrich { o with enhance_person_prompt := fun _ _ => .error e } purl p
      = stage1_enrich { o with enhance_person_prompt := fun q _ => .ok q } purl p := by
  unfold stage1_enrich
  repeat' split
  all_goals simp_all

/-- Helper: a raising composite-prompt enhancer behaves like the identity
enhancer. -/
theorem stage2_prompt_err_eq_id (o : PipelineOracles) (pinfo : Option ProductInfo)
    (purl cp : String) (e : PyExc) :
    stage2_prompt { o with enhance_composite_prompt := fun _ _ _ => .error e } pinfo purl cp
      = stage2_prompt { o with enhance_composite_prompt := fun _ _ c => .ok c } pinfo purl cp := by
  unfold stage2_prompt
  repeat' split
  all_goals simp_all

/-- Helper: a raising video-prompt enhancer behaves like the identity
enhancer. -/
theorem stage3_prompt_err_eq_id (o : PipelineOracles) (pinfo : Option ProductInfo)
    (curl vp : String) (e : PyExc) :
    stage3_prompt { o with enhance_video_prompt := fun _ _ _ => .error e } pinfo curl vp
      = stage3_prompt { o with enhance_video_prompt := fun _ v _ => .ok v } pinfo curl vp := by
  unfold stage3_prompt
  repeat' split
  all_goals simp_all

/-- C8: best-effort side operations never change the pipeline's outcome.
(1) A webhook POST never raises, is attempted at most once (no retry), and
its payload and the continuation are independent of the delivery outcome;
(2) consequently the whole full-run pipeline is unchanged under any change of
webhook delivery outcomes; (3) a raising product analysis degrades the run to
exactly the no-OpenRouter behaviour; (4)–(6) a raising prompt enhancer
(person, composite, or video) behaves exactly like the identity enhancer, so
the stage proceeds with the un-enriched prompt. -/
theorem best_effort_side_operations (o : PipelineOracles) (w w' : WebhookDeliveries)
    (rq : ReqArgs) (e : PyExc) :
    (∀ (cfg : Bool) (d : Except String Nat) (p : WPayload),
      send_webhook cfg d p = (.ok (), if cfg then [PEv.webhook p] else [])) ∧
    generate_ugc_video o w rq = generate_ugc_video o w' rq ∧
    (o.openrouter = true → rq.product_image_url ≠ "" →
      o.analyze_product_image rq.product_image_url = .error e →
      generate_ugc_video o w rq
        = generate_ugc_video { o with openrouter := false } w rq) ∧
    generate_ugc_video { o with enhance_person_prompt := fun _ _ => .error e } w rq
      = generate_ugc_video { o with enhance_person_prompt := fun q _ => .ok q } w rq ∧
    generate_ugc_video { o with enhance_composite_prompt := fun _ _ _ => .error e } w rq
      = generate_ugc_video { o with enhance_composite_prompt := fun _ _ c => .ok c } w rq ∧
    generate_ugc_video { o with enhance_video_prompt := fun _ _ _ => .error e } w rq
      = generate_ugc_video { o with enhance_video_prompt := fun _ v _ => .ok v } w rq := by
  refine ⟨send_webhook_eq, ?_, ?_, ?_, ?_, ?_⟩
  · simp only [generate_ugc_video, ugc_body, send_webhook_eq, send_failure_webhook_eq]
  · intro hor hurl ha
    simp only [generate_ugc_video, ugc_body,
      stage1_enrich_analyze_error o rq.product_image_url _ e hor hurl ha,
      stage1_enrich_off { o with openrouter := false } rq.product_image_url _ rfl,
      stage2_prompt_none, stage3_prompt_none]
    rfl
  · simp only [generate_ugc_video, ugc_body, stage1_enrich_err_eq_id]
    rfl
  · simp only [generate_ugc_video, ugc_body, stage2_prompt_err_eq_id]
    rfl
  · simp only [generate_ugc_video, ugc_body, stage3_prompt_err_eq_id]
    rfl

/-- Witness for `best_effort_side_operations`: the concrete oracles with a
failing product analysis. -/
theorem best_effort_side_operations_witness :
    okOracles.openrouter = true ∧
    rqFull.product_image_url ≠ "" ∧
    okOracles.analyze_product_image rqFull.product_image_url
      = .error { typeName := "Exception", msg := "a-fail" } ∧
    generate_ugc_video okOracles {} rqFull
      = generate_ugc_video { okOracles with openrouter := false } {} rqFull :=
  ⟨rfl, by decide, rfl,
   (best_effort_side_operations okOracles {} {} rqFull
     { typeName := "Exception", msg := "a-fail" }).2.2.1 rfl (by decide) rfl⟩

/-- Helper: `pseq` on a successful step. -/
theorem pseq_ok {E α β : Type} (a : α) (tr : List PEv) (f : α → Except E β × List PEv) :
    pseq (.ok a, tr) f = ((f a).1, tr ++ (f a).2) := rfl

/-- Helper: `pseq` on a raising step. -/
theorem pseq_err {E α β : Type} (e : E) (tr : List PEv) (f : α → Except E β × List PEv) :
    pseq (.error e, tr) f = (.error e, tr) := rfl

/-- Helper: the trace of a `pseq` always starts with the first step's trace. -/
theorem pseq_snd {E α β : Type} (x : Except E α) (tr : List PEv)
    (f : α → Except E β × List PEv) :
    (pseq (x, tr) f).2
      = tr ++ (match x with | .ok a => (f a).2 | .error _ => []) := by
  cases x <;> simp [pseq]

/-- Helper: the full-run trace is the body trace, extended with the failure
webhook events when the body raised. -/
theorem generate_ugc_video_snd (o : PipelineOracles) (w : WebhookDeliveries) (rq : ReqArgs) :
    (generate_ugc_video o w rq).2
      = (ugc_body o w rq).2
        ++ (match (ugc_body o w rq).1 with
            | .ok _ => []
            | .error e =>
              (send_failure_webhook o.webhook_cfg w.fail rq.generation_id e none none).2) := by
  unfold generate_ugc_video
  rcases h : ugc_body o w rq with ⟨r, tr⟩
  cases r <;> simp

/-- C9: in a full run whose stage-1 and stage-2 provider and storage calls
succeed, the event trace begins with: stage-1 processing webhook, stage-1
submit, stage-1 poll, stage-1 storage upload, then (and only then) the
stage-1 completion webhook carrying the durable S3 URL, the stage-2
processing webhook, the stage-2 submission consuming that durable URL, the
stage-2 poll, the stage-2 storage upload, the stage-2 completion webhook
carrying its durable URL, the stage-3 processing webhook, and the stage-3
submission consuming stage-2's durable URL.  So each completion webhook
follows its stage's durable storage, and each next-stage submission follows
the previous stage's durable storage and consumes the stored URL. -/
theorem full_run_storage_before_webhook_and_next_stage
    (o : PipelineOracles) (w : WebhookDeliveries) (rq : ReqArgs) (pp : String)
    (j1 j2 : JobRes) (url1 url2 : String) (s3a s3b : S3Res)
    (hcfg : o.webhook_cfg = true)
    (hmode : rq.stage1_mode ≠ "EASY")
    (hpp : rq.person_prompt = some pp)
    (hsub1 : ∀ p, o.submit_text_to_image p = .ok j1)
    (hwait1 : o.fal_wait j1.job_id 120 = .ok url1)
    (hup1 : o.upload_person url1 = .ok s3a)
    (hsub2 : ∀ p, o.submit_image_edit s3a.s3_url p rq.product_image_url = .ok j2)
    (hwait2 : o.fal_wait j2.job_id 90 = .ok url2)
    (hup2 : o.upload_composite url2 = .ok s3b) :
    ∃ fp tail,
      (generate_ugc_video o w rq).2 =
        [PEv.webhook { generation_id := rq.generation_id, stage := some 1,
                       status := "processing", message := some "Generating AI person..." },
         PEv.submit 1 fp,
         PEv.poll 1,
         PEv.store 1 url1,
         PEv.webhook { generation_id := rq.generation_id, stage := some 1,
                       status := "completed", person_url := some s3a.s3_url },
         PEv.webhook { generation_id := rq.generation_id, stage := some 2,
                       status := "processing",
                       message := some "Compositing product with person..." },
         PEv.submit 2 s3a.s3_url,
         PEv.poll 2,
         PEv.store 2 url2,
         PEv.webhook { generation_id := rq.generation_id, stage := some 2,
                       status := "completed", composite_url := some s3b.s3_url },
         PEv.webhook { generation_id := rq.generation_id, stage := some 3,
                       status := "processing",
                       message := some ("Generating video ("
                         ++ (if rq.veo3_mode = "FAST" then "fast" else "standard")
                         ++ " mode)...") },
         PEv.submit 3 s3b.s3_url] ++ tail := by
  rw [generate_ugc_video_snd]
  simp only [ugc_body, ugcBuildPrompt, hmode, hpp, callSubmitT2I, callFalWait,
    callUploadPerson, callSubmitEdit, callUploadComposite, callVeo3Submit, callVeo3Wait,
    callUploadVideo, hsub1, hwait1, hup1, hsub2, hwait2, hup2, hcfg, send_webhook_eq,
    pseq_ok, pseq_err, pseq_snd, if_true, if_false]
  simp only [List.append_assoc, List.cons_append, List.nil_append]
  exact ⟨_, _, rfl⟩

/-- Witness for `full_run_storage_before_webhook_and_next_stage` at the
concrete all-success oracles. -/
theorem full_run_storage_ordering_witness :
    okOracles.webhook_cfg = true ∧
    rqFull.stage1_mode ≠ "EASY" ∧
    rqFull.person_prompt = some "pp" ∧
    (∃ fp tail,
      (generate_ugc_video okOracles {} rqFull).2 =
        [PEv.webhook { generation_id := rqFull.generation_id, stage := some 1,
                       status := "processing", message := some "Generating AI person..." },
         PEv.submit 1 fp,
         PEv.poll 1,
         PEv.store 1 "wurl",
         PEv.webhook { generation_id := rqFull.generation_id, stage := some 1,
                       status := "completed", person_url := some "pu" },
         PEv.webhook { generation_id := rqFull.generation_id, stage := some 2,
                       status := "processing",
                       message := some "Compositing product with person..." },
         PEv.submit 2 "pu",
         PEv.poll 2,
         PEv.store 2 "wurl",
         PEv.webhook { generation_id := rqFull.generation_id, stage := some 2,
                       status := "completed", composite_url := some "cu" },
         PEv.webhook { generation_id := rqFull.generation_id, stage := some 3,
                       status := "processing",
                       message := some ("Generating video ("
                         ++ (if rqFull.veo3_mode = "FAST" then "fast" else "standard")
                         ++ " mode)...") },
         PEv.submit 3 "cu"] ++ tail) :=
  ⟨rfl, by decide, rfl,
   full_run_storage_before_webhook_and_next_stage okOracles {} rqFull "pp"
     { job_id := "j1" } { job_id := "j2" } "wurl" "wurl"
     { s3_url := "pu", s3_key := "pk" } { s3_url := "cu", s3_key := "ck" }
     rfl (by decide) rfl (fun _ => rfl) rfl rfl (fun _ => rfl) rfl rfl⟩

/-- Helper: sequencing preserves absence of failure webhooks. -/
theorem failedCount_pseq {E α β : Type} (x : Except E α × List PEv)
    (f : α → Except E β × List PEv) (hx : failedCount x.2 = 0)
    (hf : ∀ a, failedCount (f a).2 = 0) : failedCount (pseq x f).2 = 0 := by
  rcases x with ⟨r, tr⟩
  cases r with
  | ok a =>
    rw [pseq_ok]
    simp only [failedCount, List.countP_append] at *
    have := hf a
    omega
  | error e => exact hx

/-- Helper: a progress webhook (status other than FAILED) contributes no
failure webhook to the trace. -/
theorem failedCount_send_webhook (cfg : Bool) (d : Except String Nat) (p : WPayload)
    (h : p.status ≠ "FAILED") : failedCount (send_webhook cfg d p).2 = 0 := by
  rw [send_webhook_eq]
  cases cfg <;> simp [failedCount, isFailureWebhook, h]

/-- Helper: the full-run body emits no failure webhook. -/
theorem ugc_body_no_failed (o : PipelineOracles) (w : WebhookDeliveries) (rq : ReqArgs) :
    failedCount (ugc_body o w rq).2 = 0 := by
  unfold ugc_body
  repeat' first
    | rfl
    | (apply failedCount_send_webhook; simp)
    | apply failedCount_pseq
    | (intro a; dsimp only)

/-- Helper: the stage-1-only body emits no failure webhook. -/
theorem person_only_body_no_failed (o : PipelineOracles) (rq : ReqArgs) :
    failedCount (person_only_body o rq).2 = 0 := by
  unfold person_only_body
  repeat' first
    | rfl
    | (apply failedCount_send_webhook; simp)
    | apply failedCount_pseq
    | (intro a; dsimp only)

/-- Helper: the stage-2-only body emits no failure webhook. -/
theorem composite_only_body_no_failed (o : PipelineOracles) (rq : ReqArgs) :
    failedCount (composite_only_body o rq).2 = 0 := by
  unfold composite_only_body
  repeat' first
    | rfl
    | (apply failedCount_send_webhook; simp)
    | apply failedCount_pseq
    | (intro a; dsimp only)

/-- Helper: the stage-3-only body emits no failure webhook. -/
theorem video_only_body_no_failed (o : PipelineOracles) (rq : ReqArgs) :
    failedCount (video_only_body o rq).2 = 0 := by
  unfold video_only_body
  repeat' first
    | rfl
    | (apply failedCount_send_webhook; simp)
    | apply failedCount_pseq
    | (intro a; dsimp only)

/-- Helper: the stages-1-and-2 body emits no failure webhook. -/
theorem stages12_body_no_failed (o : PipelineOracles) (w : WebhookDeliveries)
    (rq : ReqArgs) : failedCount (stages12_body o w rq).2 = 0 := by
  unfold stages12_body
  repeat' first
    | rfl
    | (apply failedCount_send_webhook; simp)
    | apply failedCount_pseq
    | (intro a; dsimp only)

/-- Helper: the failure payload always carries status FAILED and the error
classification of the exception, and `current_stage` exactly when a nonzero
stage was supplied. -/
theorem failure_payload_fields (gid : String) (e : PyExc) (st : Option Nat)
    (sef : Option String) :
    (failure_payload gid e st sef).status = "FAILED" ∧
    (failure_payload gid e st sef).error_type = some (classify_error e).error_type ∧
    (failure_payload gid e st sef).is_refundable = some (classify_error e).is_refundable ∧
    (failure_payload gid e st sef).can_retry = some (classify_error e).can_retry ∧
    (failure_payload gid e st sef).current_stage
      = (match st with
         | some s => if s = 0 then none else some s
         | none => none) := by
  unfold failure_payload set_stage_error
  repeat' split
  all_goals simp
  all_goals exact ⟨rfl, rfl, rfl⟩

/-- C5 (amended): for each of the five entry points, whenever the stage body
raises, the entry point sends exactly one failure webhook — whose payload
carries status FAILED and the error classification (`error_type`,
`is_refundable`, `can_retry`) — and re-raises the same exception, with no
further events after the failure webhook (no retry).  The single-stage entry
points stamp the payload with the running stage number
(`current_stage=1/2/3`); the full run and the stages-1-and-2 run pass
`stage=None`, so their failure payload carries no stage number. -/
theorem entry_points_failure_webhook (o : PipelineOracles) (w : WebhookDeliveries)
    (rq : ReqArgs) (e : PyExc) (btr : List PEv) (hcfg : o.webhook_cfg = true) :
    (ugc_body o w rq = (.error e, btr) →
      generate_ugc_video o w rq
        = (.error e,
           btr ++ [PEv.webhook (failure_payload rq.generation_id e none none)]) ∧
      failedCount (generate_ugc_video o w rq).2 = 1) ∧
    (person_only_body o rq = (.error e, btr) →
      generate_person_only o w rq
        = (.error e,
           btr ++ [PEv.webhook
             (failure_payload rq.generation_id e (some 1) (some "stage1_error"))]) ∧
      failedCount (generate_person_only o w rq).2 = 1) ∧
    (composite_only_body o rq = (.error e, btr) →
      generate_composite_only o w rq
        = (.error e,
           btr ++ [PEv.webhook
             (failure_payload rq.generation_id e (some 2) (some "stage2_error"))]) ∧
      failedCount (generate_composite_only o w rq).2 = 1) ∧
    (video_only_body o rq = (.error e, btr) →
      generate_video_only o w rq
        = (.error e,
           btr ++ [PEv.webhook
             (failure_payload rq.generation_id e (some 3) (some "stage3_error"))]) ∧
      failedCount (generate_video_only o w rq).2 = 1) ∧
    (stages12_body o w rq = (.error e, btr) →
      generate_person_and_composite o w rq
        = (.error e,
           btr ++ [PEv.webhook (failure_payload rq.generation_id e none none)]) ∧
      failedCount (generate_person_and_composite o w rq).2 = 1) ∧
    ((failure_payload rq.generation_id e (some 1) (some "stage1_error")).current_stage
       = some 1 ∧
     (failure_payload rq.generation_id e (some 2) (some "stage2_error")).current_stage
       = some 2 ∧
     (failure_payload rq.generation_id e (some 3) (some "stage3_error")).current_stage
       = some 3 ∧
     (failure_payload rq.generation_id e none none).current_stage = none) ∧
    (∀ (gid : String) (st : Option Nat) (sef : Option String),
      (failure_payload gid e st sef).status = "FAILED" ∧
      (failure_payload gid e st sef).error_type = some (classify_error e).error_type ∧
      (failure_payload gid e st sef).is_refundable
        = some (classify_error e).is_refundable ∧
      (failure_payload gid e st sef).can_retry = some (classify_error e).can_retry) := by
  have hone : ∀ (gid : String) (st : Option Nat) (sef : Option String),
      failedCount [PEv.webhook (failure_payload gid e st sef)] = 1 := by
    intro gid st sef
    simp [failedCount, isFailureWebhook, (failure_payload_fields gid e st sef).1]
  refine ⟨?_, ?_, ?_, ?_, ?_, ?_, ?_⟩
  · intro hb
    have htr : generate_ugc_video o w rq
        = (.error e,
           btr ++ [PEv.webhook (failure_payload rq.generation_id e none none)]) := by
      unfold generate_ugc_video
      rw [hb]
      simp [send_failure_webhook_eq, hcfg]
    refine ⟨htr, ?_⟩
    have h0 : failedCount btr = 0 := by
      have h := ugc_body_no_failed o w rq
      rw [hb] at h
      exact h
    rw [htr]
    have h1 := hone rq.generation_id none none
    simp only [failedCount, List.countP_append] at *
    omega
  · intro hb
    have htr : generate_person_only o w rq
        = (.error e,
           btr ++ [PEv.webhook
             (failure_payload rq.generation_id e (some 1) (some "stage1_error"))]) := by
      unfold generate_person_only
      rw [hb]
      simp [send_failure_webhook_eq, hcfg]
    refine ⟨htr, ?_⟩
    have h0 : failedCount btr = 0 := by
      have h := person_only_body_no_failed o rq
      rw [hb] at h
      exact h
    rw [htr]
    have h1 := hone rq.generation_id (some 1) (some "stage1_error")
    simp only [failedCount, List.countP_append] at *
    omega
  · intro hb
    have htr : generate_composite_only o w rq
        = (.error e,
           btr ++ [PEv.webhook
             (failure_payload rq.generation_id e (some 2) (some "stage2_error"))]) := by
      unfold generate_composite_only
      rw [hb]
      simp [send_failure_webhook_eq, hcfg]
    refine ⟨htr, ?_⟩
    have h0 : failedCount btr = 0 := by
      have h := composite_only_body_no_failed o rq
      rw [hb] at h
      exact h
    rw [htr]
    have h1 := hone rq.generation_id (some 2) (some "stage2_error")
    simp only [failedCount, List.countP_append] at *
    omega
  · intro hb
    have htr : generate_video_only o w rq
        = (.error e,
           btr ++ [PEv.webhook
             (failure_payload rq.generation_id e (some 3) (some "stage3_error"))]) := by
      unfold generate_video_only
      rw [hb]
      simp [send_failure_webhook_eq, hcfg]
    refine ⟨htr, ?_⟩
    have h0 : failedCount btr = 0 := by
      have h := video_only_body_no_failed o rq
      rw [hb] at h
      exact h
    rw [htr]
    have h1 := hone rq.generation_id (some 3) (some "stage3_error")
    simp only [failedCount, List.countP_append] at *
    omega
  · intro hb
    have htr : generate_person_and_composite o w rq
        = (.error e,
           btr ++ [PEv.webhook (failure_payload rq.generation_id e none none)]) := by
      unfold generate_person_and_composite
      rw [hb]
      simp [send_failure_webhook_eq, hcfg]
    refine ⟨htr, ?_⟩
    have h0 : failedCount btr = 0 := by
      have h := stages12_body_no_failed o w rq
      rw [hb] at h
      exact h
    rw [htr]
    have h1 := hone rq.generation_id none none
    simp only [failedCount, List.countP_append] at *
    omega
  · exact ⟨(failure_payload_fields rq.generation_id e (some 1) (some "stage1_error")).2.2.2.2,
      (failure_payload_fields rq.generation_id e (some 2) (some "stage2_error")).2.2.2.2,
      (failure_payload_fields rq.generation_id e (some 3) (some "stage3_error")).2.2.2.2,
      (failure_payload_fields rq.generation_id e none none).2.2.2.2⟩
  · intro gid st sef
    exact ⟨(failure_payload_fields gid e st sef).1,
      (failure_payload_fields gid e st sef).2.1,
      (failure_payload_fields gid e st sef).2.2.1,
      (failure_payload_fields gid e st sef).2.2.2.1⟩

/-- C5, counterexample: a full run whose stage-1 submission raises sends its
single failure webhook with `stage=None` — the payload carries no
`current_stage`, contradicting the claim that every entry point's failure
webhook carries the number of the running stage. -/
theorem full_run_failure_webhook_lacks_stage_number :
    (generate_ugc_video failS1Oracles {} rqFull).2
      = [PEv.webhook { generation_id := "g", stage := some 1, status := "processing",
                       message := some "Generating AI person..." },
         PEv.submit 1 "pp",
         PEv.webhook (failure_payload "g" eBoom none none)] ∧
    failedCount (generate_ugc_video failS1Oracles {} rqFull).2 = 1 ∧
    (failure_payload "g" eBoom none none).status = "FAILED" ∧
    (failure_payload "g" eBoom none none).current_stage = none := by decide

/-- Witness for `entry_points_failure_webhook`: concrete full run whose
stage-1 submission raises. -/
theorem entry_points_failure_webhook_witness :
    failS1Oracles.webhook_cfg = true ∧
    ugc_body failS1Oracles {} rqFull
      = (.error eBoom,
         [PEv.webhook { generation_id := "g", stage := some 1, status := "processing",
                        message := some "Generating AI person..." },
          PEv.submit 1 "pp"]) ∧
    (generate_ugc_video failS1Oracles {} rqFull
      = (.error eBoom,
         [PEv.webhook { generation_id := "g", stage := some 1, status := "processing",
                        message := some "Generating AI person..." },
          PEv.submit 1 "pp"]
          ++ [PEv.webhook (failure_payload "g" eBoom none none)]) ∧
     failedCount (generate_ugc_video failS1Oracles {} rqFull).2 = 1) :=
  ⟨rfl, rfl,
   (entry_points_failure_webhook failS1Oracles {} rqFull eBoom
     [PEv.webhook { generation_id := "g", stage := some 1, status := "processing",
                    message := some "Generating AI person..." },
      PEv.submit 1 "pp"] rfl).1 rfl⟩

end UGC
